import Mathlib

/-!
Shallow embedding of the inventory API (Api-inventario) core:
the product ledger, sale registration, stock edits and the low-stock
alert flag, translated from

  app/models/product.py       (Product, necesita_alerta, puede_vender)
  app/models/sale.py          (Sale)
  app/schemas/product.py      (ProductCreate, ProductUpdate, StockUpdate)
  app/schemas/sale.py         (SaleCreate)
  app/services/product_service.py (crear_producto, obtener_producto,
                                   actualizar_producto, actualizar_stock)
  app/services/sale_service.py    (registrar_venta)
  app/routes/products.py, app/routes/sales.py (pydantic validation boundary)

Conventions of the embedding:
* Python ints are `Int`; ids are `Int` (SQLAlchemy autoincrement).
* The relational store is a `DB` value: a list of product rows, a list of
  sale rows and the autoincrement counters.  An uncaught HTTPException (or
  an IntegrityError) means `db.commit()` is never reached and the session
  is rolled back, so the committed store is unchanged; hence a service
  call is `Except ApiError outcome`, the error case leaving the store as
  it was.
* The notification collaborator `enviar_alerta_stock_bajo` (SendGrid) is
  external; its boolean result is an oracle parameter `sendOk` passed to
  the operations that may invoke it, and each outcome records in
  `alert_attempts` how many times the collaborator was invoked.
* Pydantic field validation (`gt=0`, `ge=0`, string lengths) runs at the
  route boundary before the service; a failed validation is a 422 carrying
  the failing field names, embedded as `ApiError.validationError`.
-/

/-- A row of the `users` table (only the fields the core reads). -/
structure User where
  id : Int
  email : String
deriving DecidableEq

/-- A row of the `products` table (app/models/product.py). -/
structure Product where
  id : Int
  nombre : String
  sku : String
  stock_actual : Int
  stock_minimo : Int
  usuario_id : Int
  alerta_enviada : Bool
deriving DecidableEq

/-- A row of the `sales` table (app/models/sale.py); the timestamp column
is irrelevant to the claims and omitted. -/
structure Sale where
  id : Int
  producto_id : Int
  cantidad : Int
deriving DecidableEq

/-- `Product.necesita_alerta` (app/models/product.py:105-116):
stock at or below the minimum and no alert sent yet. -/
def Product.necesita_alerta (p : Product) : Bool :=
  decide (p.stock_actual ≤ p.stock_minimo) && !p.alerta_enviada

/-- `Product.puede_vender` (app/models/product.py:119-129):
enough stock for the requested quantity. -/
def Product.puede_vender (p : Product) (cantidad : Int) : Bool :=
  decide (p.stock_actual ≥ cantidad)

/-- The committed relational store: product rows, sale rows and the two
autoincrement counters. -/
structure DB where
  products : List Product
  sales : List Sale
  nextProductId : Int
  nextSaleId : Int
deriving DecidableEq

/-- Committing a mutation of one product row: the row with the product's
primary key takes the new value (the ORM session flushes the mutated
object back to its row on `db.commit()`). -/
def DB.updateProduct (db : DB) (p : Product) : DB :=
  { db with products := db.products.map (fun q => if q.id == p.id then p else q) }

/-- Committing `registrar_venta`: the mutated product row plus the new
sale row, in the same `db.commit()`. -/
def DB.commitVenta (db : DB) (p : Product) (s : Sale) : DB :=
  { db.updateProduct p with sales := db.sales ++ [s], nextSaleId := db.nextSaleId + 1 }

/-- The error outcomes the embedded operations can produce, one per
`raise HTTPException` site (plus the pydantic 422 and the uncaught
IntegrityError of `actualizar_producto`). -/
inductive ApiError where
  /-- 404: product absent, or present under a different owner where the
  query is owner-scoped (`obtener_producto`). -/
  | productNotFound
  /-- 403: `registrar_venta`'s explicit owner check. -/
  | forbidden
  /-- 400: `registrar_venta` when `puede_vender` is false. -/
  | insufficientStock
  /-- 400: `crear_producto` catching IntegrityError on the unique `sku`. -/
  | skuExists
  /-- uncaught IntegrityError (HTTP 500) in `actualizar_producto` when a
  sku edit collides; the transaction is rolled back. -/
  | integrityError
  /-- 422: pydantic validation failure, carrying the failing field names. -/
  | validationError (fields : List String)
deriving DecidableEq

/-- Schema `SaleCreate` (app/schemas/sale.py:17-32). -/
structure SaleCreate where
  producto_id : Int
  cantidad : Int
deriving DecidableEq

/-- Pydantic validation of `SaleCreate`: `producto_id` and `cantidad`
both carry `gt=0`. -/
def SaleCreate.validationErrors (s : SaleCreate) : List String :=
  (if s.producto_id ≤ 0 then ["producto_id"] else []) ++
    (if s.cantidad ≤ 0 then ["cantidad"] else [])

/-- Schema `StockUpdate` (app/schemas/product.py:65-78). -/
structure StockUpdate where
  stock_actual : Int
deriving DecidableEq

/-- Pydantic validation of `StockUpdate`: `stock_actual` carries `ge=0`. -/
def StockUpdate.validationErrors (s : StockUpdate) : List String :=
  if s.stock_actual < 0 then ["stock_actual"] else []

/-- Schema `ProductCreate` (app/schemas/product.py:17-34). -/
structure ProductCreate where
  nombre : String
  sku : String
  stock_actual : Int := 0
  stock_minimo : Int := 10
deriving DecidableEq

/-- Pydantic validation of `ProductCreate`: name length 2..200, sku
length 1..50, both stocks `ge=0`. -/
def ProductCreate.validationErrors (s : ProductCreate) : List String :=
  (if s.nombre.length < 2 ∨ 200 < s.nombre.length then ["nombre"] else []) ++
    (if s.sku.length < 1 ∨ 50 < s.sku.length then ["sku"] else []) ++
      (if s.stock_actual < 0 then ["stock_actual"] else []) ++
        (if s.stock_minimo < 0 then ["stock_minimo"] else [])

/-- Schema `ProductUpdate` (app/schemas/product.py:41-58): every field
optional, only the set ones are applied. -/
structure ProductUpdate where
  nombre : Option String := none
  sku : Option String := none
  stock_actual : Option Int := none
  stock_minimo : Option Int := none
deriving DecidableEq

/-- Pydantic validation of `ProductUpdate`: the constraints of the set
fields only. -/
def ProductUpdate.validationErrors (s : ProductUpdate) : List String :=
  (match s.nombre with
   | some n => if n.length < 2 ∨ 200 < n.length then ["nombre"] else []
   | none => []) ++
    (match s.sku with
     | some k => if k.length < 1 ∨ 50 < k.length then ["sku"] else []
     | none => []) ++
      (match s.stock_actual with
       | some a => if a < 0 then ["stock_actual"] else []
       | none => []) ++
        (match s.stock_minimo with
         | some m => if m < 0 then ["stock_minimo"] else []
         | none => [])

/-- Outcome of a successful `registrar_venta`: the committed store, the
new sale row, the boolean returned to the route, and how many times the
notification collaborator was invoked. -/
structure VentaOutcome where
  db : DB
  venta : Sale
  alerta_enviada : Bool
  alert_attempts : Nat
deriving DecidableEq

/-- Outcome of a successful product-service mutation. -/
structure ProductOutcome where
  db : DB
  producto : Product
  alert_attempts : Nat
deriving DecidableEq

/-- `crear_producto` (app/services/product_service.py:25-64): insert the
row; an IntegrityError on the globally unique `sku` column is caught,
rolled back and reported as a 400. -/
def crear_producto (db : DB) (producto_data : ProductCreate) (usuario : User) :
    Except ApiError (DB × Product) :=
  if db.products.any (fun q => q.sku == producto_data.sku) then
    .error .skuExists
  else
    let nuevo_producto : Product :=
      { id := db.nextProductId
        nombre := producto_data.nombre
        sku := producto_data.sku
        stock_actual := producto_data.stock_actual
        stock_minimo := producto_data.stock_minimo
        usuario_id := usuario.id
        alerta_enviada := false }
    .ok ({ db with
            products := db.products ++ [nuevo_producto]
            nextProductId := db.nextProductId + 1 },
         nuevo_producto)

/-- `obtener_producto` (app/services/product_service.py:102-128): lookup
scoped by id AND owner; absence and other-owner are both a 404. -/
def obtener_producto (db : DB) (producto_id : Int) (usuario : User) :
    Except ApiError Product :=
  match db.products.find? (fun p => p.id == producto_id && p.usuario_id == usuario.id) with
  | none => .error .productNotFound
  | some producto => .ok producto

/-- `registrar_venta` (app/services/sale_service.py:26-150): lookup by id
alone, explicit owner check (403), `puede_vender` check (400), decrement,
insert the sale row, and if `necesita_alerta` invoke the collaborator and
set the flag only when it reports success; then one `db.commit()`. -/
def registrar_venta (db : DB) (venta_data : SaleCreate) (usuario : User) (sendOk : Bool) :
    Except ApiError VentaOutcome :=
  match db.products.find? (fun p => p.id == venta_data.producto_id) with
  | none => .error .productNotFound
  | some producto =>
    if producto.usuario_id != usuario.id then
      .error .forbidden
    else if !producto.puede_vender venta_data.cantidad then
      .error .insufficientStock
    else
      let producto1 : Product :=
        { producto with stock_actual := producto.stock_actual - venta_data.cantidad }
      let nueva_venta : Sale :=
        { id := db.nextSaleId, producto_id := producto.id, cantidad := venta_data.cantidad }
      if producto1.necesita_alerta then
        let exito := sendOk
        let producto2 := if exito then { producto1 with alerta_enviada := true } else producto1
        .ok { db := db.commitVenta producto2 nueva_venta
              venta := nueva_venta
              alerta_enviada := exito
              alert_attempts := 1 }
      else
        .ok { db := db.commitVenta producto1 nueva_venta
              venta := nueva_venta
              alerta_enviada := false
              alert_attempts := 0 }

/-- `actualizar_stock` (app/services/product_service.py:171-223):
owner-scoped lookup, overwrite the stock, then: above the minimum clear
the flag; else if `necesita_alerta` invoke the collaborator and set the
flag — the source ignores the collaborator's boolean here, so `sendOk`
is not consulted. -/
def actualizar_stock (db : DB) (producto_id : Int) (stock_data : StockUpdate)
    (usuario : User) (sendOk : Bool) : Except ApiError ProductOutcome :=
  match obtener_producto db producto_id usuario with
  | .error e => .error e
  | .ok producto =>
    let producto1 : Product := { producto with stock_actual := stock_data.stock_actual }
    if producto1.stock_actual > producto1.stock_minimo then
      let producto2 := { producto1 with alerta_enviada := false }
      .ok { db := db.updateProduct producto2, producto := producto2, alert_attempts := 0 }
    else if producto1.necesita_alerta then
      let producto2 := { producto1 with alerta_enviada := true }
      .ok { db := db.updateProduct producto2, producto := producto2, alert_attempts := 1 }
    else
      .ok { db := db.updateProduct producto1, producto := producto1, alert_attempts := 0 }

/-- `model_dump(exclude_unset=True)` plus the setattr loop of
`actualizar_producto`: only the set fields are written. -/
def Product.applyUpdate (p : Product) (u : ProductUpdate) : Product :=
  { p with
    nombre := u.nombre.getD p.nombre
    sku := u.sku.getD p.sku
    stock_actual := u.stock_actual.getD p.stock_actual
    stock_minimo := u.stock_minimo.getD p.stock_minimo }

/-- `actualizar_producto` (app/services/product_service.py:131-168):
owner-scoped lookup, apply the set fields, and only when `stock_actual`
was among them and the new stock exceeds the (possibly updated) minimum,
clear the alert flag.  A sku edit colliding with another row's sku makes
`db.commit()` raise an uncaught IntegrityError; the transaction rolls
back.  No notification is ever attempted here. -/
def actualizar_producto (db : DB) (producto_id : Int) (producto_data : ProductUpdate)
    (usuario : User) : Except ApiError ProductOutcome :=
  match obtener_producto db producto_id usuario with
  | .error e => .error e
  | .ok producto =>
    let producto1 := producto.applyUpdate producto_data
    let producto2 :=
      if producto_data.stock_actual.isSome &&
          decide (producto1.stock_actual > producto1.stock_minimo) then
        { producto1 with alerta_enviada := false }
      else producto1
    if producto_data.sku.isSome &&
        db.products.any (fun q => q.id != producto.id && q.sku == producto2.sku) then
      .error .integrityError
    else
      .ok { db := db.updateProduct producto2, producto := producto2, alert_attempts := 0 }

/-- Route `POST /sales` `registrar_nueva_venta` (app/routes/sales.py):
pydantic validation of the body, then the service. -/
def registrar_nueva_venta (db : DB) (venta : SaleCreate) (usuario : User) (sendOk : Bool) :
    Except ApiError VentaOutcome :=
  if venta.validationErrors.isEmpty then registrar_venta db venta usuario sendOk
  else .error (.validationError venta.validationErrors)

/-- Route `POST /products` `crear_nuevo_producto` (app/routes/products.py). -/
def crear_nuevo_producto (db : DB) (producto : ProductCreate) (usuario : User) :
    Except ApiError (DB × Product) :=
  if producto.validationErrors.isEmpty then crear_producto db producto usuario
  else .error (.validationError producto.validationErrors)

/-- Route `PUT /products/id/stock` `actualizar_stock_producto`
(app/routes/products.py). -/
def actualizar_stock_producto (db : DB) (producto_id : Int) (stock : StockUpdate)
    (usuario : User) (sendOk : Bool) : Except ApiError ProductOutcome :=
  if stock.validationErrors.isEmpty then actualizar_stock db producto_id stock usuario sendOk
  else .error (.validationError stock.validationErrors)

/-- Route `PUT /products/id` `actualizar_datos_producto`
(app/routes/products.py). -/
def actualizar_datos_producto (db : DB) (producto_id : Int) (producto : ProductUpdate)
    (usuario : User) : Except ApiError ProductOutcome :=
  if producto.validationErrors.isEmpty then actualizar_producto db producto_id producto usuario
  else .error (.validationError producto.validationErrors)

/-- One committed API operation against the store. -/
inductive Op where
  | crear (data : ProductCreate) (usuario : User)
  | venta (data : SaleCreate) (usuario : User) (sendOk : Bool)
  | editStock (producto_id : Int) (data : StockUpdate) (usuario : User) (sendOk : Bool)
  | editProducto (producto_id : Int) (data : ProductUpdate) (usuario : User)
deriving DecidableEq

/-- The committed store after one operation: the new store on success; on
any error the commit is never reached (or rolled back), so the store is
unchanged. -/
def applyOp (db : DB) (op : Op) : DB :=
  match op with
  | .crear data u =>
    match crear_nuevo_producto db data u with
    | .ok r => r.1
    | .error _ => db
  | .venta data u sendOk =>
    match registrar_nueva_venta db data u sendOk with
    | .ok r => r.db
    | .error _ => db
  | .editStock producto_id data u sendOk =>
    match actualizar_stock_producto db producto_id data u sendOk with
    | .ok r => r.db
    | .error _ => db
  | .editProducto producto_id data u =>
    match actualizar_datos_producto db producto_id data u with
    | .ok r => r.db
    | .error _ => db

/-- The non-negativity invariant of the product ledger. -/
def StockInv (db : DB) : Prop := ∀ p ∈ db.products, 0 ≤ p.stock_actual

/-! Concrete scenario fixtures used by the scenario theorems. -/

def ownerA : User := { id := 1, email := "ana@tienda.cl" }

def otherUser : User := { id := 2, email := "beto@tienda.cl" }

def camiseta : Product :=
  { id := 1, nombre := "Camiseta", sku := "CAM-001", stock_actual := 15,
    stock_minimo := 10, usuario_id := 1, alerta_enviada := false }

def dbA : DB := { products := [camiseta], sales := [], nextProductId := 2, nextSaleId := 1 }

def dbA9 : DB :=
  { products := [{ camiseta with stock_actual := 9, alerta_enviada := true }],
    sales := [{ id := 1, producto_id := 1, cantidad := 6 }],
    nextProductId := 2, nextSaleId := 2 }

def dbA8 : DB :=
  { products := [{ camiseta with stock_actual := 8, alerta_enviada := true }],
    sales := [{ id := 1, producto_id := 1, cantidad := 6 },
              { id := 2, producto_id := 1, cantidad := 1 }],
    nextProductId := 2, nextSaleId := 3 }

/-- Claim C3: with threshold 10, stock 15 and the flag down, a sale of 6
(stock 9) makes exactly one notification attempt and, the send
succeeding, persists `alerta_enviada = true`; the immediately following
sale of 1 (stock 8) makes zero further attempts. -/
theorem venta_cruza_umbral_alerta_unica :
    registrar_nueva_venta dbA { producto_id := 1, cantidad := 6 } ownerA true =
      .ok { db := dbA9, venta := { id := 1, producto_id := 1, cantidad := 6 },
            alerta_enviada := true, alert_attempts := 1 } ∧
    registrar_nueva_venta dbA9 { producto_id := 1, cantidad := 1 } ownerA true =
      .ok { db := dbA8, venta := { id := 2, producto_id := 1, cantidad := 1 },
            alerta_enviada := false, alert_attempts := 0 } := by
  constructor <;> rfl

def camisetaBaja : Product :=
  { camiseta with stock_actual := 8, alerta_enviada := true }

def dbB : DB := { products := [camisetaBaja], sales := [], nextProductId := 2, nextSaleId := 1 }

def dbB20 : DB :=
  { products := [{ camiseta with stock_actual := 20, alerta_enviada := false }],
    sales := [], nextProductId := 2, nextSaleId := 1 }

def dbB8 : DB :=
  { products := [{ camiseta with stock_actual := 8, alerta_enviada := true }],
    sales := [{ id := 1, producto_id := 1, cantidad := 12 }],
    nextProductId := 2, nextSaleId := 2 }

/-- Claim C4: with threshold 10, stock 8 and the flag up, a stock edit to
20 clears `alerta_enviada` making no notification attempt; the following
sale of 12 (stock 8) makes a new notification attempt. -/
theorem recuperacion_resetea_alerta :
    actualizar_stock_producto dbB 1 { stock_actual := 20 } ownerA true =
      .ok { db := dbB20,
            producto := { camiseta with stock_actual := 20, alerta_enviada := false },
            alert_attempts := 0 } ∧
    registrar_nueva_venta dbB20 { producto_id := 1, cantidad := 12 } ownerA true =
      .ok { db := dbB8, venta := { id := 1, producto_id := 1, cantidad := 12 },
            alerta_enviada := true, alert_attempts := 1 } := by
  constructor <;> rfl

def camisetaAlta : Product := { camiseta with stock_actual := 20 }

def dbC : DB := { products := [camisetaAlta], sales := [], nextProductId := 2, nextSaleId := 1 }

/-- Claim C5, counterexample: in `actualizar_stock` the collaborator
reports failure (`sendOk = false`), a notification attempt is made, and
`alerta_enviada` is nonetheless persisted as `true` — refuting that the
flag is persisted as true only when the send succeeds. -/
theorem edicion_stock_ignora_fallo_envio :
    actualizar_stock_producto dbC 1 { stock_actual := 5 } ownerA false =
      .ok { db := { products := [{ camiseta with stock_actual := 5, alerta_enviada := true }],
                    sales := [], nextProductId := 2, nextSaleId := 1 },
            producto := { camiseta with stock_actual := 5, alerta_enviada := true },
            alert_attempts := 1 } := by
  rfl

/-- Claim C6, counterexample: a sale request against an existing product
owned by another user fails with `forbidden` (HTTP 403), not with
`productNotFound` — the 403 is distinguishable from the nonexistent case,
refuting the claim for the sale path. -/
theorem venta_ajena_devuelve_forbidden :
    registrar_nueva_venta dbA { producto_id := 1, cantidad := 1 } otherUser true =
      .error .forbidden ∧
    ApiError.forbidden ≠ ApiError.productNotFound := by
  exact ⟨rfl, by decide⟩

/-- Claim C8, counterexample: user 1 already owns the product with sku
CAM-001; a different user creating a product with that sku fails with
`skuExists` — refuting that distinct users may share a SKU and that the
conflict is scoped to the same owner. -/
theorem sku_conflicto_entre_usuarios :
    crear_nuevo_producto dbA
        { nombre := "Polera", sku := "CAM-001", stock_actual := 5, stock_minimo := 2 }
        otherUser =
      .error .skuExists ∧
    (camiseta ∈ dbA.products ∧ camiseta.usuario_id ≠ otherUser.id) := by
  refine ⟨rfl, by decide, by decide⟩

/-! Characterizations of the success paths of the services, used by the
general theorems below. -/

theorem registrar_venta_ok_cases (db : DB) (venta_data : SaleCreate) (usuario : User)
    (sendOk : Bool) (r : VentaOutcome)
    (h : registrar_venta db venta_data usuario sendOk = .ok r) :
    ∃ producto,
      db.products.find? (fun p => p.id == venta_data.producto_id) = some producto ∧
      producto.usuario_id = usuario.id ∧
      venta_data.cantidad ≤ producto.stock_actual ∧
      r.venta = { id := db.nextSaleId, producto_id := producto.id,
                  cantidad := venta_data.cantidad } ∧
      (Product.necesita_alerta
          { producto with stock_actual := producto.stock_actual - venta_data.cantidad } = true →
        r = { db := db.commitVenta
                (if sendOk then
                  { producto with
                      stock_actual := producto.stock_actual - venta_data.cantidad,
                      alerta_enviada := true }
                 else
                  { producto with stock_actual := producto.stock_actual - venta_data.cantidad })
                r.venta,
              venta := r.venta, alerta_enviada := sendOk, alert_attempts := 1 }) ∧
      (Product.necesita_alerta
          { producto with stock_actual := producto.stock_actual - venta_data.cantidad } = false →
        r = { db := db.commitVenta
                { producto with stock_actual := producto.stock_actual - venta_data.cantidad }
                r.venta,
              venta := r.venta, alerta_enviada := false, alert_attempts := 0 }) := by
  unfold registrar_venta at h
  cases hfind : db.products.find? (fun p => p.id == venta_data.producto_id) with
  | none => rw [hfind] at h; cases h
  | some producto =>
    rw [hfind] at h
    simp only at h
    refine ⟨producto, rfl, ?_⟩
    split at h
    · cases h
    · rename_i hown
      split at h
      · cases h
      · rename_i hstock
        have hown' : producto.usuario_id = usuario.id := by
          simpa [bne_eq_false_iff_eq] using hown
        have hstock' : venta_data.cantidad ≤ producto.stock_actual := by
          simp only [Bool.not_eq_true, Bool.not_eq_false] at hstock
          simpa [Product.puede_vender, ge_iff_le] using hstock
        refine ⟨hown', hstock', ?_⟩
        split at h
        · rename_i halerta
          cases h
          refine ⟨rfl, fun _ => ?_, fun hcon => ?_⟩
          · cases sendOk <;> rfl
          · rw [halerta] at hcon; cases hcon
        · rename_i halerta
          rw [Bool.not_eq_true] at halerta
          cases h
          refine ⟨rfl, fun hcon => ?_, fun _ => ?_⟩
          · rw [halerta] at hcon; exact Bool.noConfusion hcon
          · rfl

theorem actualizar_stock_ok_cases (db : DB) (producto_id : Int) (stock_data : StockUpdate)
    (usuario : User) (sendOk : Bool) (r : ProductOutcome)
    (h : actualizar_stock db producto_id stock_data usuario sendOk = .ok r) :
    ∃ producto,
      db.products.find?
          (fun p => p.id == producto_id && p.usuario_id == usuario.id) = some producto ∧
      r.db = db.updateProduct r.producto ∧
      r.producto.id = producto.id ∧
      r.producto.stock_actual = stock_data.stock_actual ∧
      (stock_data.stock_actual > producto.stock_minimo →
        r.producto = { producto with
                         stock_actual := stock_data.stock_actual,
                         alerta_enviada := false } ∧ r.alert_attempts = 0) ∧
      (stock_data.stock_actual ≤ producto.stock_minimo → producto.alerta_enviada = false →
        r.producto = { producto with
                         stock_actual := stock_data.stock_actual,
                         alerta_enviada := true } ∧ r.alert_attempts = 1) ∧
      (stock_data.stock_actual ≤ producto.stock_minimo → producto.alerta_enviada = true →
        r.producto = { producto with stock_actual := stock_data.stock_actual } ∧
          r.alert_attempts = 0) := by
  unfold actualizar_stock obtener_producto at h
  cases hfind : db.products.find?
      (fun p => p.id == producto_id && p.usuario_id == usuario.id) with
  | none => rw [hfind] at h; cases h
  | some producto =>
    rw [hfind] at h
    simp only at h
    refine ⟨producto, rfl, ?_⟩
    split at h
    · rename_i hgt
      cases h
      simp only [gt_iff_lt] at hgt
      refine ⟨rfl, rfl, rfl, fun _ => ⟨rfl, rfl⟩, fun hle _ => ?_, fun hle _ => ?_⟩ <;>
        · exfalso; omega
    · rename_i hgt
      simp only [gt_iff_lt, not_lt] at hgt
      split at h
      · rename_i halerta
        simp only [Product.necesita_alerta, Bool.and_eq_true, decide_eq_true_eq,
          Bool.not_eq_true'] at halerta
        cases h
        refine ⟨rfl, rfl, rfl, fun hgt2 => ?_, fun _ _ => ⟨rfl, rfl⟩, fun _ htrue => ?_⟩
        · exfalso; omega
        · rw [halerta.2] at htrue; cases htrue
      · rename_i halerta
        simp only [Product.necesita_alerta, Bool.and_eq_true, decide_eq_true_eq,
          Bool.not_eq_true', not_and] at halerta
        cases h
        have htrue : producto.alerta_enviada = true := by
          rcases Bool.eq_false_or_eq_true producto.alerta_enviada with ht | hf
          · exact ht
          · exact absurd hf (halerta hgt)
        refine ⟨rfl, rfl, rfl, fun hgt2 => ?_, fun _ hfalse => ?_, fun _ _ => ⟨rfl, rfl⟩⟩
        · exfalso; omega
        · rw [htrue] at hfalse; cases hfalse

theorem actualizar_producto_ok_cases (db : DB) (producto_id : Int)
    (producto_data : ProductUpdate) (usuario : User) (r : ProductOutcome)
    (h : actualizar_producto db producto_id producto_data usuario = .ok r) :
    ∃ producto,
      db.products.find?
          (fun p => p.id == producto_id && p.usuario_id == usuario.id) = some producto ∧
      r.db = db.updateProduct r.producto ∧
      r.alert_attempts = 0 ∧
      (producto_data.stock_actual.isSome = true →
          (producto.applyUpdate producto_data).stock_minimo <
            (producto.applyUpdate producto_data).stock_actual →
        r.producto = { producto.applyUpdate producto_data with alerta_enviada := false }) ∧
      (producto_data.stock_actual.isSome = false →
        r.producto = producto.applyUpdate producto_data) ∧
      ((producto.applyUpdate producto_data).stock_actual ≤
          (producto.applyUpdate producto_data).stock_minimo →
        r.producto = producto.applyUpdate producto_data) := by
  unfold actualizar_producto obtener_producto at h
  cases hfind : db.products.find?
      (fun p => p.id == producto_id && p.usuario_id == usuario.id) with
  | none => rw [hfind] at h; cases h
  | some producto =>
    rw [hfind] at h
    simp only at h
    cases hc : (producto_data.stock_actual.isSome &&
        decide ((producto.applyUpdate producto_data).stock_actual >
          (producto.applyUpdate producto_data).stock_minimo)) with
    | false =>
      simp only [hc, Bool.false_eq_true, if_false] at h
      split at h
      · cases h
      · cases h
        refine ⟨producto, rfl, rfl, rfl, fun hsome hlt => ?_, fun _ => rfl, fun _ => rfl⟩
        rw [hsome] at hc
        simp only [Bool.true_and, decide_eq_false_iff_not, gt_iff_lt, not_lt] at hc
        omega
    | true =>
      simp only [hc, if_true] at h
      simp only [Bool.and_eq_true, decide_eq_true_eq, gt_iff_lt] at hc
      split at h
      · cases h
      · cases h
        refine ⟨producto, rfl, rfl, rfl, fun _ _ => rfl, fun hnone => ?_, fun hle => ?_⟩
        · rw [hnone] at hc
          exact absurd hc.1 Bool.false_ne_true
        · exact absurd hc.2 (by omega)

/-! Route-boundary lemmas: a successful route call means the pydantic
validation passed and the service succeeded. -/

theorem registrar_nueva_venta_ok_cases (db : DB) (venta : SaleCreate) (usuario : User)
    (sendOk : Bool) (r : VentaOutcome)
    (h : registrar_nueva_venta db venta usuario sendOk = .ok r) :
    venta.validationErrors = [] ∧ registrar_venta db venta usuario sendOk = .ok r := by
  unfold registrar_nueva_venta at h
  split at h
  · rename_i hv
    exact ⟨List.isEmpty_iff.mp hv, h⟩
  · cases h

theorem crear_nuevo_producto_ok_cases (db : DB) (producto : ProductCreate) (usuario : User)
    (r : DB × Product) (h : crear_nuevo_producto db producto usuario = .ok r) :
    producto.validationErrors = [] ∧ crear_producto db producto usuario = .ok r := by
  unfold crear_nuevo_producto at h
  split at h
  · rename_i hv
    exact ⟨List.isEmpty_iff.mp hv, h⟩
  · cases h

theorem actualizar_stock_producto_ok_cases (db : DB) (producto_id : Int) (stock : StockUpdate)
    (usuario : User) (sendOk : Bool) (r : ProductOutcome)
    (h : actualizar_stock_producto db producto_id stock usuario sendOk = .ok r) :
    stock.validationErrors = [] ∧ actualizar_stock db producto_id stock usuario sendOk = .ok r := by
  unfold actualizar_stock_producto at h
  split at h
  · rename_i hv
    exact ⟨List.isEmpty_iff.mp hv, h⟩
  · cases h

theorem actualizar_datos_producto_ok_cases (db : DB) (producto_id : Int)
    (producto : ProductUpdate) (usuario : User) (r : ProductOutcome)
    (h : actualizar_datos_producto db producto_id producto usuario = .ok r) :
    producto.validationErrors = [] ∧
      actualizar_producto db producto_id producto usuario = .ok r := by
  unfold actualizar_datos_producto at h
  split at h
  · rename_i hv
    exact ⟨List.isEmpty_iff.mp hv, h⟩
  · cases h

/-! Consequences of a passed pydantic validation. -/

theorem SaleCreate.valid_cantidad_pos (s : SaleCreate) (h : s.validationErrors = []) :
    0 < s.cantidad := by
  by_contra hneg
  rw [not_lt] at hneg
  simp [SaleCreate.validationErrors, hneg] at h

theorem StockUpdate.valid_nonneg (s : StockUpdate) (h : s.validationErrors = []) :
    0 ≤ s.stock_actual := by
  by_contra hneg
  rw [not_le] at hneg
  simp [StockUpdate.validationErrors, hneg] at h

theorem ProductCreate.valid_stock_nonneg (s : ProductCreate) (h : s.validationErrors = []) :
    0 ≤ s.stock_actual := by
  by_contra hneg
  rw [not_le] at hneg
  simp [ProductCreate.validationErrors, hneg] at h

theorem ProductUpdate.valid_stock_field_nonneg (s : ProductUpdate) (a : Int)
    (hs : s.stock_actual = some a) (h : s.validationErrors = []) : 0 ≤ a := by
  by_contra hneg
  rw [not_le] at hneg
  simp [ProductUpdate.validationErrors, hs, hneg] at h

theorem crear_producto_ok_cases (db : DB) (producto_data : ProductCreate) (usuario : User)
    (r : DB × Product) (h : crear_producto db producto_data usuario = .ok r) :
    r.2 = { id := db.nextProductId
            nombre := producto_data.nombre
            sku := producto_data.sku
            stock_actual := producto_data.stock_actual
            stock_minimo := producto_data.stock_minimo
            usuario_id := usuario.id
            alerta_enviada := false } ∧
    r.1 = { db with
              products := db.products ++ [r.2],
              nextProductId := db.nextProductId + 1 } ∧
    (db.products.any fun q => q.sku == producto_data.sku) = false := by
  unfold crear_producto at h
  split at h
  · cases h
  · rename_i hany
    injection h with h
    subst h
    exact ⟨rfl, rfl, by simpa using hany⟩

/-! The non-negativity invariant is preserved by every committed
operation. -/

theorem StockInv.updateProduct {db : DB} (h : StockInv db) {p : Product}
    (hp : 0 ≤ p.stock_actual) : StockInv (db.updateProduct p) := by
  intro q hq
  simp only [DB.updateProduct, List.mem_map] at hq
  obtain ⟨r', hr', hrq⟩ := hq
  subst hrq
  split
  · exact hp
  · exact h r' hr'

theorem StockInv.commitVenta {db : DB} (h : StockInv db) {p : Product}
    (hp : 0 ≤ p.stock_actual) (s : Sale) : StockInv (db.commitVenta p s) :=
  fun q hq => StockInv.updateProduct h hp q hq

theorem applyOp_stockInv (db : DB) (op : Op) (h : StockInv db) :
    StockInv (applyOp db op) := by
  cases op with
  | crear data u =>
    simp only [applyOp]
    cases hE : crear_nuevo_producto db data u with
    | error e => exact h
    | ok r =>
      obtain ⟨hval, hsvc⟩ := crear_nuevo_producto_ok_cases db data u r hE
      obtain ⟨hnew, hdb, _⟩ := crear_producto_ok_cases db data u r hsvc
      show StockInv r.1
      intro q hq
      rw [hdb] at hq
      simp only [List.mem_append, List.mem_singleton] at hq
      rcases hq with hq | hq
      · exact h q hq
      · rw [hq, hnew]
        exact ProductCreate.valid_stock_nonneg data hval
  | venta data u sendOk =>
    simp only [applyOp]
    cases hE : registrar_nueva_venta db data u sendOk with
    | error e => exact h
    | ok r =>
      obtain ⟨hval, hsvc⟩ := registrar_nueva_venta_ok_cases db data u sendOk r hE
      obtain ⟨producto, hfind, hown, hstock, hventa, hfire, hquiet⟩ :=
        registrar_venta_ok_cases db data u sendOk r hsvc
      rcases Bool.eq_false_or_eq_true
          (Product.necesita_alerta
            { producto with stock_actual := producto.stock_actual - data.cantidad }) with
        hn | hn
      · rw [hfire hn]
        cases sendOk with
        | false => exact StockInv.commitVenta h (by simp; omega) r.venta
        | true => exact StockInv.commitVenta h (by simp; omega) r.venta
      · rw [hquiet hn]
        exact StockInv.commitVenta h (by simp; omega) r.venta
  | editStock producto_id data u sendOk =>
    simp only [applyOp]
    cases hE : actualizar_stock_producto db producto_id data u sendOk with
    | error e => exact h
    | ok r =>
      obtain ⟨hval, hsvc⟩ := actualizar_stock_producto_ok_cases db producto_id data u sendOk r hE
      obtain ⟨producto, hfind, hdb, _, hstock, _⟩ :=
        actualizar_stock_ok_cases db producto_id data u sendOk r hsvc
      show StockInv r.db
      rw [hdb]
      exact StockInv.updateProduct h (hstock ▸ StockUpdate.valid_nonneg data hval)
  | editProducto producto_id data u =>
    simp only [applyOp]
    cases hE : actualizar_datos_producto db producto_id data u with
    | error e => exact h
    | ok r =>
      obtain ⟨hval, hsvc⟩ := actualizar_datos_producto_ok_cases db producto_id data u r hE
      obtain ⟨producto, hfind, hdb, _, hlow, hnone, hhigh⟩ :=
        actualizar_producto_ok_cases db producto_id data u r hsvc
      show StockInv r.db
      rw [hdb]
      have hmem : producto ∈ db.products := List.mem_of_find?_eq_some hfind
      have hbase : 0 ≤ (producto.applyUpdate data).stock_actual := by
        cases hsa : data.stock_actual with
        | none => simpa [Product.applyUpdate, hsa] using h producto hmem
        | some a =>
          simpa [Product.applyUpdate, hsa] using
            ProductUpdate.valid_stock_field_nonneg data a hsa hval
      refine StockInv.updateProduct h ?_
      cases hsa : data.stock_actual with
      | none => rw [hnone (by rw [hsa]; rfl)]; exact hbase
      | some a =>
        rcases le_or_lt (producto.applyUpdate data).stock_actual
            (producto.applyUpdate data).stock_minimo with hle | hlt
        · rw [hhigh hle]; exact hbase
        · rw [hlow (by rw [hsa]; rfl) hlt]; exact hbase

/-- Claim C1: starting from any store satisfying the ledger invariant,
after every sequence of committed operations (product creation, sales,
stock edits) every product's `stock_actual` is still non-negative; an
operation that would drive it negative errors out and commits nothing. -/
theorem stock_nunca_negativo (ops : List Op) (db : DB) (h : StockInv db) :
    StockInv (ops.foldl applyOp db) := by
  induction ops generalizing db with
  | nil => exact h
  | cons op rest ih => exact ih (applyOp db op) (applyOp_stockInv db op h)

/-- Witness for claim C1 at a concrete store and operation sequence. -/
theorem stock_nunca_negativo_witness :
    StockInv dbA ∧
      StockInv ([Op.venta { producto_id := 1, cantidad := 6 } ownerA true,
                 Op.editStock 1 { stock_actual := 0 } ownerA false].foldl applyOp dbA) :=
  ⟨by unfold StockInv; decide, stock_nunca_negativo _ dbA (by unfold StockInv; decide)⟩

/-- Claim C2: for a validated sale body against a product that exists and
belongs to the caller, `registrar_venta` fails with `insufficientStock`
exactly when the requested quantity exceeds the current stock, and on
that failure nothing is committed: no sale row, no stock change, no flag
change. -/
theorem venta_stock_insuficiente_iff (db : DB) (venta_data : SaleCreate) (usuario : User)
    (sendOk : Bool) (producto : Product)
    (hfind : db.products.find? (fun p => p.id == venta_data.producto_id) = some producto)
    (hown : producto.usuario_id = usuario.id)
    (hval : venta_data.validationErrors = []) :
    (registrar_nueva_venta db venta_data usuario sendOk = .error .insufficientStock ↔
      producto.stock_actual < venta_data.cantidad) ∧
    (producto.stock_actual < venta_data.cantidad →
      applyOp db (.venta venta_data usuario sendOk) = db) := by
  have hv : venta_data.validationErrors.isEmpty = true := by rw [hval]; rfl
  rcases lt_or_le producto.stock_actual venta_data.cantidad with hlt | hge
  · have hE : registrar_nueva_venta db venta_data usuario sendOk =
        .error .insufficientStock := by
      unfold registrar_nueva_venta registrar_venta
      simp [hv, hfind, hown, Product.puede_vender, not_le.mpr hlt]
    refine ⟨⟨fun _ => hlt, fun _ => hE⟩, fun _ => ?_⟩
    simp [applyOp, hE]
  · have hNE : registrar_nueva_venta db venta_data usuario sendOk ≠
        .error .insufficientStock := by
      unfold registrar_nueva_venta registrar_venta
      simp only [hv, if_true, hfind]
      simp only [hown, bne_self_eq_false, Bool.false_eq_true, if_false]
      simp only [Product.puede_vender, ge_iff_le, decide_eq_true_eq]
      rw [if_neg (by simp [hge])]
      split <;> simp
    exact ⟨⟨fun hE => absurd hE hNE, fun hlt => absurd hlt (not_lt.mpr hge)⟩,
           fun hlt => absurd hlt (not_lt.mpr hge)⟩

/-- Witness for claim C2 at a concrete store: stock 15, requested 20. -/
theorem venta_stock_insuficiente_iff_witness :
    (registrar_nueva_venta dbA { producto_id := 1, cantidad := 20 } ownerA true =
        .error .insufficientStock ↔ camiseta.stock_actual < 20) ∧
    (camiseta.stock_actual < 20 →
      applyOp dbA (.venta { producto_id := 1, cantidad := 20 } ownerA true) = dbA) :=
  venta_stock_insuficiente_iff dbA { producto_id := 1, cantidad := 20 } ownerA true camiseta
    (by decide) (by decide) (by decide)

/-- Claim C7: a sale request whose quantity is 0 or negative is rejected
at the pydantic boundary with a 422 naming `cantidad` (InvalidQuantity in
the spec's taxonomy) before the service runs, so no sale row is created
and stock and flag are untouched. -/
theorem venta_cantidad_invalida (db : DB) (venta_data : SaleCreate) (usuario : User)
    (sendOk : Bool) (h : venta_data.cantidad ≤ 0) :
    registrar_nueva_venta db venta_data usuario sendOk =
      .error (.validationError venta_data.validationErrors) ∧
    "cantidad" ∈ venta_data.validationErrors ∧
    applyOp db (.venta venta_data usuario sendOk) = db := by
  have hmem : "cantidad" ∈ venta_data.validationErrors := by
    unfold SaleCreate.validationErrors
    simp [h]
  have hne : venta_data.validationErrors.isEmpty = false := by
    cases hL : venta_data.validationErrors with
    | nil => rw [hL] at hmem; cases hmem
    | cons a l => rfl
  have hE : registrar_nueva_venta db venta_data usuario sendOk =
      .error (.validationError venta_data.validationErrors) := by
    unfold registrar_nueva_venta
    simp [hne]
  exact ⟨hE, hmem, by simp [applyOp, hE]⟩

/-- Witness for claim C7 at quantity 0. -/
theorem venta_cantidad_invalida_witness :
    registrar_nueva_venta dbA { producto_id := 1, cantidad := 0 } ownerA true =
      .error (.validationError
        (SaleCreate.validationErrors { producto_id := 1, cantidad := 0 })) ∧
    "cantidad" ∈ SaleCreate.validationErrors { producto_id := 1, cantidad := 0 } ∧
    applyOp dbA (.venta { producto_id := 1, cantidad := 0 } ownerA true) = dbA :=
  venta_cantidad_invalida dbA { producto_id := 1, cantidad := 0 } ownerA true (by decide)

/-! Helper lemmas about committed row updates. -/

theorem updateProduct_mem_id {db : DB} {p q : Product}
    (hq : q ∈ (db.updateProduct p).products) (hid : q.id = p.id) : q = p := by
  simp only [DB.updateProduct, List.mem_map] at hq
  obtain ⟨r', hr', heq⟩ := hq
  subst heq
  by_cases hc : (r'.id == p.id) = true
  · simp [hc]
  · rw [if_neg hc] at hid ⊢
    exact absurd (beq_iff_eq.mpr hid) hc

theorem updateProduct_getElem? (db : DB) (p : Product) (i : Nat) :
    (db.updateProduct p).products[i]? =
      db.products[i]?.map (fun q => if q.id == p.id then p else q) := by
  simp [DB.updateProduct, List.getElem?_map]

theorem find?_id_eq {db : DB} {producto : Product} {producto_id : Int}
    (hfind : db.products.find? (fun p => p.id == producto_id) = some producto) :
    producto.id = producto_id ∧ producto ∈ db.products := by
  have h1 := List.find?_some hfind
  have h2 := List.mem_of_find?_eq_some hfind
  simp only [beq_iff_eq] at h1
  exact ⟨h1, h2⟩

theorem find?_id_owner_eq {db : DB} {producto : Product} {producto_id : Int} {usuario : User}
    (hfind : db.products.find?
      (fun p => p.id == producto_id && p.usuario_id == usuario.id) = some producto) :
    producto.id = producto_id ∧ producto.usuario_id = usuario.id ∧
      producto ∈ db.products := by
  have h1 := List.find?_some hfind
  have h2 := List.mem_of_find?_eq_some hfind
  simp only [Bool.and_eq_true, beq_iff_eq] at h1
  exact ⟨h1.1, h1.2, h2⟩

theorem nodup_id_inj {db : DB} (hU : (db.products.map Product.id).Nodup)
    {p q : Product} (hp : p ∈ db.products) (hq : q ∈ db.products)
    (hid : p.id = q.id) : p = q :=
  List.inj_on_of_nodup_map hU hp hq hid

theorem updateProduct_mem {db : DB} {p q : Product}
    (hq : q ∈ (db.updateProduct p).products) :
    q = p ∨ (q ∈ db.products ∧ q.id ≠ p.id) := by
  simp only [DB.updateProduct, List.mem_map] at hq
  obtain ⟨r', hr', heq⟩ := hq
  subst heq
  by_cases hc : (r'.id == p.id) = true
  · left; simp [hc]
  · right
    rw [if_neg hc]
    exact ⟨hr', fun h => hc (beq_iff_eq.mpr h)⟩

theorem commitVenta_products (db : DB) (p : Product) (s : Sale) :
    (db.commitVenta p s).products = (db.updateProduct p).products := rfl

/-- Claim C5, amended: when a stock mutation makes a notification
attempt, `registrar_venta` persists `alerta_enviada` equal to the
collaborator's reported outcome (true exactly on success) and the sale
row still commits either way; `actualizar_stock`, however, persists the
flag as true regardless of what the collaborator reports, the stock
write committing as well. -/
theorem persistencia_bandera_tras_intento :
    (∀ db venta_data usuario sendOk r,
      registrar_nueva_venta db venta_data usuario sendOk = .ok r →
      r.alert_attempts = 1 →
        r.alerta_enviada = sendOk ∧
        r.db.sales = db.sales ++ [r.venta] ∧
        ∀ q ∈ r.db.products, q.id = venta_data.producto_id → q.alerta_enviada = sendOk) ∧
    (∀ db producto_id stock_data usuario sendOk r,
      actualizar_stock_producto db producto_id stock_data usuario sendOk = .ok r →
      r.alert_attempts = 1 →
        r.producto.alerta_enviada = true ∧
        r.producto.stock_actual = stock_data.stock_actual ∧
        ∀ q ∈ r.db.products, q.id = r.producto.id → q = r.producto) := by
  constructor
  · intro db venta_data usuario sendOk r hE hatt
    obtain ⟨hval, hsvc⟩ := registrar_nueva_venta_ok_cases db venta_data usuario sendOk r hE
    obtain ⟨producto, hfind, hown, hstock, hventa, hfire, hquiet⟩ :=
      registrar_venta_ok_cases db venta_data usuario sendOk r hsvc
    obtain ⟨hpid, hpmem⟩ := find?_id_eq hfind
    rcases Bool.eq_false_or_eq_true (Product.necesita_alerta
        { producto with stock_actual := producto.stock_actual - venta_data.cantidad }) with
      hn | hn
    · have hr := hfire hn
      have hflag : producto.alerta_enviada = false :=
        (by simpa [Product.necesita_alerta] using hn :
          producto.stock_actual ≤ producto.stock_minimo + venta_data.cantidad ∧
            producto.alerta_enviada = false).2
      cases sendOk with
      | true =>
        refine ⟨by rw [hr], by rw [hr]; rfl, ?_⟩
        intro q hq hqi
        rw [hr] at hq
        rw [commitVenta_products] at hq
        rcases updateProduct_mem hq with hqp | ⟨_, hqne⟩
        · rw [hqp]; rfl
        · exact absurd (by rw [hqi, ← hpid] : q.id =
            ({ producto with
                 stock_actual := producto.stock_actual - venta_data.cantidad,
                 alerta_enviada := true } : Product).id) hqne
      | false =>
        refine ⟨by rw [hr], by rw [hr]; rfl, ?_⟩
        intro q hq hqi
        rw [hr] at hq
        rw [commitVenta_products] at hq
        rcases updateProduct_mem hq with hqp | ⟨_, hqne⟩
        · rw [hqp]; exact hflag
        · exact absurd (by rw [hqi, ← hpid] : q.id =
            ({ producto with
                 stock_actual := producto.stock_actual - venta_data.cantidad } : Product).id)
            hqne
    · have hr := hquiet hn
      rw [hr] at hatt
      simp at hatt
  · intro db producto_id stock_data usuario sendOk r hE hatt
    obtain ⟨hval, hsvc⟩ := actualizar_stock_producto_ok_cases db producto_id stock_data
      usuario sendOk r hE
    obtain ⟨producto, hfind, hdb, hrid, hrstock, hgt, hlowfire, hlowarm⟩ :=
      actualizar_stock_ok_cases db producto_id stock_data usuario sendOk r hsvc
    have hmemall : ∀ q ∈ r.db.products, q.id = r.producto.id → q = r.producto := by
      intro q hq hqi
      rw [hdb] at hq
      rcases updateProduct_mem hq with hqp | ⟨_, hqne⟩
      · exact hqp
      · exact absurd hqi hqne
    rcases le_or_lt stock_data.stock_actual producto.stock_minimo with hle | hlt
    · cases hflag : producto.alerta_enviada with
      | false =>
        obtain ⟨hrp, _⟩ := hlowfire hle hflag
        exact ⟨by rw [hrp], hrstock, hmemall⟩
      | true =>
        obtain ⟨_, hatt0⟩ := hlowarm hle hflag
        omega
    · obtain ⟨_, hatt0⟩ := hgt hlt
      omega

def productoC5 : Product := { camiseta with stock_actual := 5, alerta_enviada := true }

def outcomeC5 : ProductOutcome :=
  { db := { products := [productoC5], sales := [], nextProductId := 2, nextSaleId := 1 },
    producto := productoC5, alert_attempts := 1 }

/-- Witness for the amended claim C5: the concrete failed-send stock edit
still persists the flag as true. -/
theorem persistencia_bandera_tras_intento_witness :
    outcomeC5.producto.alerta_enviada = true ∧
    outcomeC5.producto.stock_actual = ({ stock_actual := 5 } : StockUpdate).stock_actual ∧
    ∀ q ∈ outcomeC5.db.products, q.id = outcomeC5.producto.id → q = outcomeC5.producto :=
  persistencia_bandera_tras_intento.2 dbC 1 { stock_actual := 5 } ownerA false outcomeC5
    rfl rfl

/-- Claim C6, amended: owner scoping differs by path. The product-edit
endpoints answer `productNotFound` when the product id belongs to a
different user, indistinguishable from a nonexistent id; but
`registrar_venta` looks the product up by id alone and answers
`forbidden` (HTTP 403) on an owner mismatch, a signal that does reveal
the product's existence. -/
theorem aislamiento_por_propietario :
    (∀ db producto_id stock_data usuario sendOk,
      StockUpdate.validationErrors stock_data = [] →
      (∀ p ∈ db.products, p.id = producto_id → p.usuario_id ≠ usuario.id) →
      actualizar_stock_producto db producto_id stock_data usuario sendOk =
        .error .productNotFound) ∧
    (∀ db producto_id producto_data usuario,
      ProductUpdate.validationErrors producto_data = [] →
      (∀ p ∈ db.products, p.id = producto_id → p.usuario_id ≠ usuario.id) →
      actualizar_datos_producto db producto_id producto_data usuario =
        .error .productNotFound) ∧
    (∀ db venta_data usuario sendOk producto,
      SaleCreate.validationErrors venta_data = [] →
      db.products.find? (fun p => p.id == venta_data.producto_id) = some producto →
      producto.usuario_id ≠ usuario.id →
      registrar_nueva_venta db venta_data usuario sendOk = .error .forbidden) := by
  refine ⟨?_, ?_, ?_⟩
  · intro db producto_id stock_data usuario sendOk hval hother
    have hv : stock_data.validationErrors.isEmpty = true := by rw [hval]; rfl
    have hfind : db.products.find?
        (fun p => p.id == producto_id && p.usuario_id == usuario.id) = none := by
      rw [List.find?_eq_none]
      intro p hp
      simp only [Bool.and_eq_true, beq_iff_eq, not_and]
      exact fun hid => hother p hp hid
    unfold actualizar_stock_producto actualizar_stock obtener_producto
    simp [hv, hfind]
  · intro db producto_id producto_data usuario hval hother
    have hv : producto_data.validationErrors.isEmpty = true := by rw [hval]; rfl
    have hfind : db.products.find?
        (fun p => p.id == producto_id && p.usuario_id == usuario.id) = none := by
      rw [List.find?_eq_none]
      intro p hp
      simp only [Bool.and_eq_true, beq_iff_eq, not_and]
      exact fun hid => hother p hp hid
    unfold actualizar_datos_producto actualizar_producto obtener_producto
    simp [hv, hfind]
  · intro db venta_data usuario sendOk producto hval hfind hne
    have hv : venta_data.validationErrors.isEmpty = true := by rw [hval]; rfl
    unfold registrar_nueva_venta registrar_venta
    simp [hv, hfind, hne]

/-- Witness for the amended claim C6: concrete other-owner edit answers
`productNotFound` (and the concrete other-owner sale of the
counterexample answers `forbidden`). -/
theorem aislamiento_por_propietario_witness :
    actualizar_stock_producto dbA 1 { stock_actual := 3 } otherUser true =
      .error .productNotFound :=
  aislamiento_por_propietario.1 dbA 1 { stock_actual := 3 } otherUser true (by decide)
    (by decide)

/-- Claim C8, amended: the SKU uniqueness constraint is global rather
than per-owner: a validated create fails with `skuExists` exactly when
some existing product of any owner already carries that SKU, so two
distinct users cannot both hold a product with the same SKU. -/
theorem sku_conflicto_es_global (db : DB) (producto_data : ProductCreate) (usuario : User)
    (hval : producto_data.validationErrors = []) :
    crear_nuevo_producto db producto_data usuario = .error .skuExists ↔
      ∃ p ∈ db.products, p.sku = producto_data.sku := by
  have hv : producto_data.validationErrors.isEmpty = true := by rw [hval]; rfl
  unfold crear_nuevo_producto crear_producto
  cases hany : db.products.any (fun q => q.sku == producto_data.sku) with
  | true =>
    simp only [List.any_eq_true, beq_iff_eq] at hany
    simpa [hv] using hany
  | false =>
    rw [List.any_eq_false] at hany
    simp only [hv, if_true, Bool.false_eq_true, if_false]
    constructor
    · intro hcon
      cases hcon
    · rintro ⟨p, hp, hsku⟩
      exact absurd (beq_iff_eq.mpr hsku) (hany p hp)

/-- Witness for the amended claim C8: another owner already holds the
SKU, so the create fails. -/
theorem sku_conflicto_es_global_witness :
    crear_nuevo_producto dbA
        { nombre := "Gorro", sku := "CAM-001", stock_actual := 1, stock_minimo := 1 }
        otherUser =
      .error .skuExists ↔
      ∃ p ∈ dbA.products,
        p.sku = ({ nombre := "Gorro", sku := "CAM-001", stock_actual := 1,
                   stock_minimo := 1 } : ProductCreate).sku :=
  sku_conflicto_es_global dbA
    { nombre := "Gorro", sku := "CAM-001", stock_actual := 1, stock_minimo := 1 }
    otherUser (by decide)

/-- Claim C10: with product ids unique (they are the primary key), the
`alerta_enviada` flag goes from true to false only through an operation
that writes `stock_actual` to a value strictly above `stock_minimo`:
`registrar_venta` never clears any flag; a product edit that does not set
`stock_actual` leaves every flag unchanged even when it moves
`stock_minimo` across the current stock; and when a stock edit or a
product edit does clear a flag, it wrote that product's stock to a value
strictly above its (possibly updated) minimum. -/
theorem bandera_baja_solo_por_stock_alto :
    (∀ (db : DB) (venta_data : SaleCreate) (usuario : User) (sendOk : Bool)
        (r : VentaOutcome) (i : Nat) (q q' : Product),
      (db.products.map Product.id).Nodup →
      registrar_nueva_venta db venta_data usuario sendOk = .ok r →
      db.products[i]? = some q → r.db.products[i]? = some q' →
      q.alerta_enviada = true → q'.alerta_enviada = true) ∧
    (∀ (db : DB) (producto_id : Int) (producto_data : ProductUpdate) (usuario : User)
        (r : ProductOutcome) (i : Nat) (q q' : Product),
      (db.products.map Product.id).Nodup →
      producto_data.stock_actual = none →
      actualizar_datos_producto db producto_id producto_data usuario = .ok r →
      db.products[i]? = some q → r.db.products[i]? = some q' →
      q'.alerta_enviada = q.alerta_enviada) ∧
    (∀ (db : DB) (producto_id : Int) (stock_data : StockUpdate) (usuario : User)
        (sendOk : Bool) (r : ProductOutcome) (i : Nat) (q q' : Product),
      actualizar_stock_producto db producto_id stock_data usuario sendOk = .ok r →
      db.products[i]? = some q → r.db.products[i]? = some q' →
      q.alerta_enviada = true → q'.alerta_enviada = false →
      q'.stock_actual = stock_data.stock_actual ∧
        q'.stock_minimo < q'.stock_actual) ∧
    (∀ (db : DB) (producto_id : Int) (producto_data : ProductUpdate) (usuario : User)
        (r : ProductOutcome) (i : Nat) (q q' : Product),
      (db.products.map Product.id).Nodup →
      actualizar_datos_producto db producto_id producto_data usuario = .ok r →
      db.products[i]? = some q → r.db.products[i]? = some q' →
      q.alerta_enviada = true → q'.alerta_enviada = false →
      ∃ a, producto_data.stock_actual = some a ∧ q'.stock_actual = a ∧
        q'.stock_minimo < q'.stock_actual) := by
  refine ⟨?_, ?_, ?_, ?_⟩
  · intro db venta_data usuario sendOk r i q q' hU hE hq hq' hflag
    obtain ⟨hval, hsvc⟩ := registrar_nueva_venta_ok_cases db venta_data usuario sendOk r hE
    obtain ⟨producto, hfind, hown, hstock, hventa, hfire, hquiet⟩ :=
      registrar_venta_ok_cases db venta_data usuario sendOk r hsvc
    obtain ⟨hpid, hpmem⟩ := find?_id_eq hfind
    have hqmem : q ∈ db.products := List.getElem?_mem hq
    rcases Bool.eq_false_or_eq_true (Product.necesita_alerta
        { producto with stock_actual := producto.stock_actual - venta_data.cantidad }) with
      hn | hn
    · have hr := hfire hn
      have hPflag : producto.alerta_enviada = false :=
        (by simpa [Product.necesita_alerta] using hn :
          producto.stock_actual ≤ producto.stock_minimo + venta_data.cantidad ∧
            producto.alerta_enviada = false).2
      cases sendOk with
      | true =>
        have hdbr : r.db = db.commitVenta
            { producto with
                stock_actual := producto.stock_actual - venta_data.cantidad,
                alerta_enviada := true } r.venta := by rw [hr]; rfl
        rw [hdbr, commitVenta_products, updateProduct_getElem?, hq] at hq'
        simp only [Option.map_some', Option.some.injEq] at hq'
        split at hq'
        · rw [← hq']
        · rw [← hq']
          exact hflag
      | false =>
        have hdbr : r.db = db.commitVenta
            { producto with
                stock_actual := producto.stock_actual - venta_data.cantidad } r.venta := by
          rw [hr]; rfl
        rw [hdbr, commitVenta_products, updateProduct_getElem?, hq] at hq'
        simp only [Option.map_some', Option.some.injEq] at hq'
        split at hq'
        · rename_i hc
          have hqid : q.id = producto.id := beq_iff_eq.mp hc
          have hqp : q = producto := nodup_id_inj hU hqmem hpmem hqid
          rw [hqp] at hflag
          rw [hflag] at hPflag
          exact Bool.noConfusion hPflag
        · rw [← hq']
          exact hflag
    · have hr := hquiet hn
      have hdbr : r.db = db.commitVenta
          { producto with stock_actual := producto.stock_actual - venta_data.cantidad }
          r.venta := by rw [hr]
      rw [hdbr, commitVenta_products, updateProduct_getElem?, hq] at hq'
      simp only [Option.map_some', Option.some.injEq] at hq'
      split at hq'
      · rename_i hc
        have hqid : q.id = producto.id := beq_iff_eq.mp hc
        have hqp : q = producto := nodup_id_inj hU hqmem hpmem hqid
        rw [← hq']
        exact hqp ▸ hflag
      · rw [← hq']
        exact hflag
  · intro db producto_id producto_data usuario r i q q' hU hnone' hE hq hq'
    obtain ⟨hval, hsvc⟩ :=
      actualizar_datos_producto_ok_cases db producto_id producto_data usuario r hE
    obtain ⟨producto, hfind, hdb, hatt0, hlow, hnoneimpl, hhigh⟩ :=
      actualizar_producto_ok_cases db producto_id producto_data usuario r hsvc
    obtain ⟨hpid, hpown, hpmem⟩ := find?_id_owner_eq hfind
    have hqmem : q ∈ db.products := List.getElem?_mem hq
    have hrp : r.producto = producto.applyUpdate producto_data :=
      hnoneimpl (by rw [hnone']; rfl)
    rw [hdb, updateProduct_getElem?, hq] at hq'
    simp only [Option.map_some', Option.some.injEq] at hq'
    split at hq'
    · rename_i hc
      have hqid : q.id = producto.id := by
        have h1 := beq_iff_eq.mp hc
        rw [hrp] at h1
        exact h1
      have hqp : q = producto := nodup_id_inj hU hqmem hpmem hqid
      rw [← hq', hrp, hqp]
      rfl
    · rw [← hq']
  · intro db producto_id stock_data usuario sendOk r i q q' hE hq hq' hflag hflag'
    obtain ⟨hval, hsvc⟩ :=
      actualizar_stock_producto_ok_cases db producto_id stock_data usuario sendOk r hE
    obtain ⟨producto, hfind, hdb, hrid, hrstock, hgt, hlowfire, hlowarm⟩ :=
      actualizar_stock_ok_cases db producto_id stock_data usuario sendOk r hsvc
    rw [hdb, updateProduct_getElem?, hq] at hq'
    simp only [Option.map_some', Option.some.injEq] at hq'
    split at hq'
    · subst hq'
      rcases le_or_lt stock_data.stock_actual producto.stock_minimo with hle | hlt
      · cases hpf : producto.alerta_enviada with
        | false =>
          obtain ⟨hrp, _⟩ := hlowfire hle hpf
          rw [hrp] at hflag'
          have hx : (true : Bool) = false := hflag'
          exact Bool.noConfusion hx
        | true =>
          obtain ⟨hrp, _⟩ := hlowarm hle hpf
          rw [hrp] at hflag'
          have hx : producto.alerta_enviada = false := hflag'
          rw [hpf] at hx
          exact Bool.noConfusion hx
      · obtain ⟨hrp, _⟩ := hgt hlt
        refine ⟨hrstock, ?_⟩
        rw [hrp]
        exact hlt
    · subst hq'
      rw [hflag] at hflag'
      exact Bool.noConfusion hflag'
  · intro db producto_id producto_data usuario r i q q' hU hE hq hq' hflag hflag'
    obtain ⟨hval, hsvc⟩ :=
      actualizar_datos_producto_ok_cases db producto_id producto_data usuario r hE
    obtain ⟨producto, hfind, hdb, hatt0, hlow, hnoneimpl, hhigh⟩ :=
      actualizar_producto_ok_cases db producto_id producto_data usuario r hsvc
    obtain ⟨hpid, hpown, hpmem⟩ := find?_id_owner_eq hfind
    have hqmem : q ∈ db.products := List.getElem?_mem hq
    rw [hdb, updateProduct_getElem?, hq] at hq'
    simp only [Option.map_some', Option.some.injEq] at hq'
    split at hq'
    · rename_i hc
      subst hq'
      cases hsa : producto_data.stock_actual with
      | none =>
        have hrp := hnoneimpl (by rw [hsa]; rfl)
        have hqid : q.id = producto.id := by
          have h1 := beq_iff_eq.mp hc
          rw [hrp] at h1
          exact h1
        have hqp : q = producto := nodup_id_inj hU hqmem hpmem hqid
        have hx : producto.alerta_enviada = false := by
          rw [hrp] at hflag'
          exact hflag'
        rw [hqp] at hflag
        rw [hflag] at hx
        exact Bool.noConfusion hx
      | some a =>
        rcases le_or_lt (producto.applyUpdate producto_data).stock_actual
            (producto.applyUpdate producto_data).stock_minimo with hle | hlt
        · have hrp := hhigh hle
          have hqid : q.id = producto.id := by
            have h1 := beq_iff_eq.mp hc
            rw [hrp] at h1
            exact h1
          have hqp : q = producto := nodup_id_inj hU hqmem hpmem hqid
          have hx : producto.alerta_enviada = false := by
            rw [hrp] at hflag'
            exact hflag'
          rw [hqp] at hflag
          rw [hflag] at hx
          exact Bool.noConfusion hx
        · have hrp := hlow (by rw [hsa]; rfl) hlt
          refine ⟨a, rfl, ?_, ?_⟩
          · rw [hrp]
            show (producto.applyUpdate producto_data).stock_actual = a
            rw [Product.applyUpdate]
            simp [hsa]
          · rw [hrp]
            exact hlt
    · subst hq'
      rw [hflag] at hflag'
      exact Bool.noConfusion hflag'

def ventaC10 : Sale := { id := 1, producto_id := 1, cantidad := 2 }

def productoC10 : Product := { camiseta with stock_actual := 6, alerta_enviada := true }

def outcomeC10 : VentaOutcome :=
  { db := { products := [productoC10], sales := [ventaC10],
            nextProductId := 2, nextSaleId := 2 },
    venta := ventaC10, alerta_enviada := false, alert_attempts := 0 }

/-- Witness for claim C10: a concrete sale against an armed low product
leaves the flag set. -/
theorem bandera_baja_solo_por_stock_alto_witness :
    productoC10.alerta_enviada = true :=
  bandera_baja_solo_por_stock_alto.1 dbB { producto_id := 1, cantidad := 2 } ownerA true
    outcomeC10 0 camisetaBaja productoC10 (by decide) rfl rfl rfl rfl
